import Mathlib

/-!
Shallow embedding of `src/rkllm_toolkit_cli/__init__.py` (rkllm-toolkit-cli).

Conventions of the embedding:
* Python `None` vs. strings: a field that can hold Python `None` or a string is
  an `Option String` (`none` = Python `None`, `some s` = the string `s`).
* A Python expression that can raise is modelled as an `Option`/`Except`
  returning function (`none` / `.error` = an exception was raised).
* External collaborators (HuggingFace hub, the RKLLM engine) are modelled by a
  `World` record holding the outcome each external call would return; the
  orchestration code is translated faithfully against those outcomes.
* Engine status codes are `Int` (Python ints); `0` is success.
* CLI hybrid rates (Python floats used only for `0 <= r <= 1` comparisons and
  string formatting) are modelled as `ℚ` together with an explicit formatting
  function `fmt : ℚ → String` standing for Python's `f"{hybrid_rate}"`.
* Side effects are recorded as an explicit `Event` trace.
-/

namespace RKLLMToolkitCLI

/-- Python `s.split("/", 1)[1]` - the characters after the first `/`.
`none` models the `IndexError` raised when `s` contains no `/`
(then `s.split("/", 1)` is the one element list `[s]`). -/
def splitAfterFirstSlash : List Char → Option (List Char)
  | [] => none
  | c :: cs => if c = '/' then some cs else splitAfterFirstSlash cs

/-- `afterSlash s` is Python `s.split("/", 1)[1]` as an `Option String`. -/
def afterSlash (s : String) : Option String :=
  (splitAfterFirstSlash s.data).map fun cs => ⟨cs⟩

/-- The constructor arguments of `RKLLMRemotePipeline.__init__`.
`lora_id` is `Option String` because the code compares it both against `""`
(in `build_vars`) and against `None` (in `remote_pipeline_to_local`).
`optimization` is the Python int `1` or `0`. -/
structure PipelineConfig where
  model_id : String
  lora_id : Option String
  platform : String
  qtype : String
  hybrid_rate : String
  library_type : String
  optimization : Nat
  deriving DecidableEq, Repr

/-- The attributes assigned by `RKLLMRemotePipeline.build_vars`.
`npu_cores = none` models the attribute staying unset when the platform is
neither `rk3588` nor `rk3576`.  In the source, `lorapath` is assigned `None`
only in the no-LoRA branch; in the LoRA branch the attribute is left unset
until `remote_pipeline_to_local` assigns it, which we also model as `none`
here. -/
structure ResolvedNames where
  npu_cores : Option Nat
  device : String
  model_name : String
  model_dir : String
  name_suffix : String
  lora_name : Option String
  lora_dir : Option String
  lorapath : Option String
  export_name : String
  export_path : String
  rkllm_version : String
  deriving DecidableEq, Repr

/-- `self.name_suffix` as assigned by `build_vars`:
`f"{platform}-{qtype}-opt-{optimization}-hybrid-ratio-{hybrid_rate}"`. -/
def name_suffix (c : PipelineConfig) : String :=
  c.platform ++ "-" ++ c.qtype ++ "-opt-" ++ toString c.optimization ++
    "-hybrid-ratio-" ++ c.hybrid_rate

/-- `RKLLMRemotePipeline.build_vars`.  Returns `none` when the Python code
would raise: `model_id` without a `/` (IndexError), `lora_id = None` hitting
`None.split` (AttributeError), or a nonempty `lora_id` without a `/`. -/
def build_vars (c : PipelineConfig) : Option ResolvedNames :=
  match afterSlash c.model_id with
  | none => none
  | some model_name =>
    let npu_cores : Option Nat :=
      if c.platform = "rk3588" then some 3
      else if c.platform = "rk3576" then some 2
      else none
    if c.lora_id = some "" then
      some { npu_cores := npu_cores
             device := "cpu"
             model_name := model_name
             model_dir := "./models/" ++ model_name ++ "/"
             name_suffix := name_suffix c
             lora_name := none
             lora_dir := none
             lorapath := none
             export_name := model_name ++ "-" ++ name_suffix c
             export_path := "./models/" ++ model_name ++ "-" ++ c.platform ++ "/"
             rkllm_version := "1.1.4" }
    else
      match c.lora_id with
      | none => none
      | some lid =>
        match afterSlash lid with
        | none => none
        | some lora_name =>
          some { npu_cores := npu_cores
                 device := "cpu"
                 model_name := model_name
                 model_dir := "./models/" ++ model_name ++ "/"
                 name_suffix := name_suffix c
                 lora_name := some lora_name
                 lora_dir := some ("./models/" ++ lora_name ++ "/")
                 lorapath := none
                 export_name := model_name ++ "-" ++ lora_name ++ "-" ++ name_suffix c
                 export_path :=
                   "./models/" ++ model_name ++ "-" ++ lora_name ++ "-" ++ c.platform ++ "/"
                 rkllm_version := "1.1.4" }

/-- `RKLLMRemotePipeline.mkpath`.  The file system is modelled as the set
(list) of existing directories; the returned `Bool` records whether
`os.makedirs` was invoked (the only side effect).  A pre-existing directory
takes the `else` branch, which only prints. -/
def mkpath (fs : List String) (path : String) : List String × Bool :=
  if path ∈ fs then (fs, false) else (path :: fs, true)

/-- Python exceptions, distinguishing `RuntimeError` (the only class the
driver's `except RuntimeError` clause catches) from every other exception
class (hub errors, `ValueError`, `AssertionError`, ...). -/
inductive PyError where
  | runtimeError (msg : String)
  | otherError (msg : String)
  deriving DecidableEq, Repr

/-- Outcome of `auth_check` inside `HubHelpers.repo_check`. -/
inductive RepoOutcome where
  | accessible
  | gated
  | notFound
  deriving DecidableEq, Repr

/-- Side effects performed by the pipeline, recorded as a trace. -/
inductive Event where
  | mkdir (path : String)
  | downloadBase (repo : String)
  | downloadLora (repo : Option String)
  | loadHF
  | loadGGUF
  | buildStep
  | exportStep (path : String)
  | loginAttempt
  | loginWarn (msg : String)
  | repoCheckMsg (msg : String)
  | comboStart (model qtype : String) (rate : ℚ)
  | createRepoStep (repo_id : String)
  | createRepoFailed
  | buildCardStep
  | uploadStep (repo_id : String)
  | convFailedLog (msg : String)
  deriving DecidableEq, Repr

/-- Outcomes of the external collaborators (HuggingFace hub, RKLLM engine)
for one `(model, qtype, hybrid_rate)` combination.  `Except String α` models
a call that either returns a value or raises a (non-`RuntimeError`) exception
whose message is the `String`; the `Int` fields are engine status codes. -/
structure World where
  snapshotBase : Except String String
  snapshotLora : Except String String
  loadHF : Int
  loadGGUF : Int
  build : Int
  exportRk : Int
  hfToken : String
  loginRaises : Option String
  whoamiResult : Except String String
  repoCheckOutcome : RepoOutcome
  createRepo : Except String String
  cardLoad : Except String String
  cardSave : Except String Unit
  uploadFolder : Except String Unit
  deriving Repr

/-- The tail of `remote_pipeline_to_local` common to both load branches:
`self.rkllm.build(...)` then `self.rkllm.export_rkllm(...)`, each raising
`RuntimeError` on a non-zero status. -/
def buildAndExportSteps (r : ResolvedNames) (w : World) (ev : List Event) :
    List Event × Except PyError Unit :=
  let ev4 := ev ++ [Event.buildStep]
  if w.build ≠ 0 then
    (ev4, .error (.runtimeError ("Failed to build model: " ++ toString w.build)))
  else
    let ev5 := ev4 ++ [Event.exportStep (r.export_path ++ r.export_name ++ ".rkllm")]
    if w.exportRk ≠ 0 then
      (ev5, .error (.runtimeError ("Failed to export model: " ++ toString w.exportRk)))
    else
      (ev5, .ok ())

/-- `RKLLMRemotePipeline.remote_pipeline_to_local`.  Mirrors the source
control flow: mkpath twice; base snapshot (its exception propagates); the
LoRA snapshot is attempted whenever `lora_id` is not Python `None` (note:
`None`, not `""`), with any exception caught and ignored; the load branch is
selected by `library_type`, an unknown value raising `RuntimeError`; then
build and export, each fatal on a non-zero status. -/
def remote_pipeline_to_local (c : PipelineConfig) (r : ResolvedNames) (w : World) :
    List Event × Except PyError Unit :=
  let ev0 := [Event.mkdir r.model_dir, Event.mkdir r.export_path]
  match w.snapshotBase with
  | .error e => (ev0 ++ [Event.downloadBase c.model_id], .error (.otherError e))
  | .ok _modelpath =>
    let ev1 := ev0 ++ [Event.downloadBase c.model_id]
    let ev2 := if c.lora_id = none then ev1 else ev1 ++ [Event.downloadLora c.lora_id]
    if c.library_type = "HF" then
      let ev3 := ev2 ++ [Event.loadHF]
      if w.loadHF ≠ 0 then
        (ev3, .error (.runtimeError ("Failed to load model: " ++ toString w.loadHF)))
      else
        buildAndExportSteps r w ev3
    else if c.library_type = "GGUF" then
      let ev3 := ev2 ++ [Event.loadGGUF]
      if w.loadGGUF ≠ 0 then
        (ev3, .error (.runtimeError ("Failed to load model: " ++ toString w.loadGGUF)))
      else
        buildAndExportSteps r w ev3
    else
      (ev2, .error (.runtimeError "Must be something wrong with the selector! Try again!"))

/-- `HubHelpers.login_to_hf`.  The `login(...)` call sits in a try/except
that only prints a warning on failure; the following `whoami(self.hf_token)`
call is unprotected, so its exception propagates out of `login_to_hf`. -/
def login_to_hf (w : World) : List Event × Except PyError String :=
  let ev :=
    match w.loginRaises with
    | some e => [Event.loginAttempt, Event.loginWarn ("Login failed: " ++ e)]
    | none => [Event.loginAttempt]
  match w.whoamiResult with
  | .error e => (ev, .error (.otherError e))
  | .ok username => (ev, .ok username)

/-- `HubHelpers.repo_check`.  Both handled hub errors fall off the end of the
function (Python returns `None`, modelled `none`); the success branch returns
`True`.  The `String` is the message printed. -/
def repo_check (model : String) (o : RepoOutcome) : Option Bool × String :=
  match o with
  | .gated =>
    (none, model ++ " is a gated repo. You do not have permission to access it. Please authenticate.")
  | .notFound => (none, model ++ " not found.")
  | .accessible => (some true, "Model repo " ++ model ++ " has been validated!")

/-- `HubHelpers.build_card`.  `ModelCard.load` failure propagates (it is not
inside any try); `ModelCard.save` failure (`RuntimeError`/`RuntimeWarning`)
is caught and only printed. -/
def build_card (w : World) : List Event × Except PyError Unit :=
  match w.cardLoad with
  | .error e => ([Event.buildCardStep], .error (.otherError e))
  | .ok _card =>
    match w.cardSave with
    | .error _ => ([Event.buildCardStep], .ok ())
    | .ok _ => ([Event.buildCardStep], .ok ())

/-- Result of `HubHelpers.upload_to_repo`: its trace, the `repo_url`
attribute (`none` when `create_repo` failed and the attribute was never
assigned), and the overall outcome. -/
structure UploadResult where
  events : List Event
  repo_url : Option String
  outcome : Except PyError Unit
  deriving Repr

/-- `HubHelpers.upload_to_repo`.  `create_repo` failure is caught and only
logged; `build_card` runs next (a card-load failure propagates); finally
`upload_folder`, whose failure propagates.  `copytree` is treated as always
succeeding and is not given its own event. -/
def upload_to_repo (username model platform version : String) (w : World) : UploadResult :=
  let repo_id := username ++ "/" ++ model ++ "-" ++ platform ++ "-" ++ version
  let (urlOpt, ev1) :=
    match w.createRepo with
    | .error _ => (none, [Event.createRepoStep repo_id, Event.createRepoFailed])
    | .ok url => (some url, [Event.createRepoStep repo_id])
  let (ev2, cardOut) := build_card w
  match cardOut with
  | .error e => ⟨ev1 ++ ev2, urlOpt, .error e⟩
  | .ok _ =>
    match w.uploadFolder with
    | .error e => ⟨ev1 ++ ev2 ++ [Event.uploadStep repo_id], urlOpt, .error (.otherError e)⟩
    | .ok _ => ⟨ev1 ++ ev2 ++ [Event.uploadStep repo_id], urlOpt, .ok ()⟩

/-- The `Platform` CLI enum. -/
inductive Platform where
  | rk3588
  | rk3576
  deriving DecidableEq, Repr

/-- The string value of a `Platform` enum member. -/
def Platform.str : Platform → String
  | .rk3588 => "rk3588"
  | .rk3576 => "rk3576"

/-- Members of the `QTypesRk3588` enum. -/
def qtypesRk3588 : List String := ["w8a8", "w8a8_g128", "w8a8_g256", "w8a8_g512"]

/-- Members of the `QTypesRk3576` enum. -/
def qtypesRk3576 : List String := ["w8a8", "w4a16", "w4a16_g32", "w4a16_g64", "w4a16_g128"]

/-- The qtype enum class consulted for a platform. -/
def allowedQtypes : Platform → List String
  | .rk3588 => qtypesRk3588
  | .rk3576 => qtypesRk3576

/-- The name of the qtype enum class for a platform (appears in the
`ValueError` message raised by `QTypesRk3588(qtype)` on a non-member). -/
def qtypeEnumName : Platform → String
  | .rk3588 => "QTypesRk3588"
  | .rk3576 => "QTypesRk3576"

/-- The qtype validation of `convert`:
`assert all(QTypesRk3588(qtype) in QTypesRk3588 for qtype in qtypes)`.
Constructing the enum member raises `ValueError` at the first non-member,
with a message naming the offending value; if all are members the assert
passes. -/
def validateQtypes (p : Platform) (qtypes : List String) : Except PyError Unit :=
  match qtypes.find? (fun q => !(allowedQtypes p).contains q) with
  | some q =>
    .error (.otherError ("'" ++ q ++ "' is not a valid " ++ qtypeEnumName p))
  | none => .ok ()

/-- The hybrid-rate validation of `convert`:
`assert all(0 <= hybrid_rate <= 1 for hybrid_rate in hybrid_rates)`.
A bare assert: the `AssertionError` carries no message, in particular not
the offending value. -/
def validateRates (rates : List ℚ) : Except PyError Unit :=
  if rates.all (fun r => decide (0 ≤ r) && decide (r ≤ 1)) then .ok ()
  else .error (.otherError "AssertionError")

/-- The `RKLLMRemotePipeline` constructed by the driver loop for one
combination: `lora_id=""`, `library_type="HF"`, `hybrid_rate=f"{rate}"`,
`optimization = 1 if optimization else 0`. -/
def pipelineOfCombo (model qtype rateStr : String) (platform : Platform)
    (optimization : Bool) : PipelineConfig :=
  { model_id := model
    lora_id := some ""
    platform := platform.str
    qtype := qtype
    hybrid_rate := rateStr
    library_type := "HF"
    optimization := if optimization then 1 else 0 }

/-- One iteration of the driver loop body.  `build_vars`, `login_to_hf` and
`repo_check` run outside the try block, so their exceptions propagate; the
try block wraps `remote_pipeline_to_local` and `upload_to_repo` and catches
only `RuntimeError`, printing `f"Model conversion failed: {e}"`.  The second
component is `some e` when an uncaught exception `e` escapes the iteration
(aborting the whole batch), `none` when the iteration completes. -/
def processCombo (fmt : ℚ → String) (platform : Platform) (optimization : Bool)
    (model qtype : String) (rate : ℚ) (w : World) : List Event × Option PyError :=
  let c := pipelineOfCombo model qtype (fmt rate) platform optimization
  let ev0 := [Event.comboStart model qtype rate]
  match build_vars c with
  | none => (ev0, some (.otherError "IndexError"))
  | some r =>
    match (login_to_hf w).2 with
    | .error e => (ev0 ++ (login_to_hf w).1, some e)
    | .ok username =>
      let ev1 := ev0 ++ (login_to_hf w).1 ++
        [Event.repoCheckMsg (repo_check c.model_id w.repoCheckOutcome).2]
      match (remote_pipeline_to_local c r w).2 with
      | .error (.runtimeError msg) =>
        (ev1 ++ (remote_pipeline_to_local c r w).1 ++
          [Event.convFailedLog ("Model conversion failed: " ++ msg)], none)
      | .error (.otherError msg) =>
        (ev1 ++ (remote_pipeline_to_local c r w).1, some (.otherError msg))
      | .ok _ =>
        let u := upload_to_repo username r.model_name c.platform r.rkllm_version w
        match u.outcome with
        | .error (.runtimeError msg) =>
          (ev1 ++ (remote_pipeline_to_local c r w).1 ++ u.events ++
            [Event.convFailedLog ("Model conversion failed: " ++ msg)], none)
        | .error (.otherError msg) =>
          (ev1 ++ (remote_pipeline_to_local c r w).1 ++ u.events, some (.otherError msg))
        | .ok _ =>
          (ev1 ++ (remote_pipeline_to_local c r w).1 ++ u.events, none)

/-- The Cartesian product iterated by the driver loop, in loop order. -/
def combos (model_ids qtypes : List String) (rates : List ℚ) :
    List (String × String × ℚ) :=
  model_ids.flatMap fun m => qtypes.flatMap fun q => rates.map fun r => (m, q, r)

/-- The driver loop over a combination list: an uncaught exception from one
iteration terminates the loop (every later combination is skipped). -/
def runCombos (fmt : ℚ → String) (platform : Platform) (optimization : Bool)
    (worlds : String → String → ℚ → World) :
    List (String × String × ℚ) → List Event × Except PyError Unit
  | [] => ([], .ok ())
  | (m, q, r) :: rest =>
    match (processCombo fmt platform optimization m q r (worlds m q r)).2 with
    | some e => ((processCombo fmt platform optimization m q r (worlds m q r)).1, .error e)
    | none =>
      ((processCombo fmt platform optimization m q r (worlds m q r)).1 ++
          (runCombos fmt platform optimization worlds rest).1,
        (runCombos fmt platform optimization worlds rest).2)

/-- The `convert` CLI command: validate qtypes, then hybrid rates, then run
the driver loop over the Cartesian product.  A validation failure raises
before the loop, hence before any event (any network activity). -/
def convert (fmt : ℚ → String) (model_ids qtypes : List String) (rates : List ℚ)
    (optimization : Bool) (platform : Platform)
    (worlds : String → String → ℚ → World) : List Event × Except PyError Unit :=
  match validateQtypes platform qtypes with
  | .error e => ([], .error e)
  | .ok _ =>
    match validateRates rates with
    | .error e => ([], .error e)
    | .ok _ =>
      runCombos fmt platform optimization worlds (combos model_ids qtypes rates)

/-- The shape of `export_name`: `model_name`, optionally `-lora_name`, then
`-name_suffix` (the two branches of `build_vars`). -/
def exportForm (mn : String) (ln : Option String) (s : String) : String :=
  match ln with
  | none => mn ++ "-" ++ s
  | some l => mn ++ "-" ++ l ++ "-" ++ s

/-- Two `PipelineConfig`s that differ in exactly one of qtype, hybrid_rate,
optimization, platform, or LoRA presence (all other name-relevant fields
equal).  `optimization` carries its documented domain `{0, 1}`. -/
def DiffersInOne (c₁ c₂ : PipelineConfig) : Prop :=
  (c₁.model_id = c₂.model_id ∧ c₁.lora_id = c₂.lora_id ∧ c₁.platform = c₂.platform ∧
    c₁.hybrid_rate = c₂.hybrid_rate ∧ c₁.optimization = c₂.optimization ∧
    c₁.qtype ≠ c₂.qtype) ∨
  (c₁.model_id = c₂.model_id ∧ c₁.lora_id = c₂.lora_id ∧ c₁.platform = c₂.platform ∧
    c₁.qtype = c₂.qtype ∧ c₁.optimization = c₂.optimization ∧
    c₁.hybrid_rate ≠ c₂.hybrid_rate) ∨
  (c₁.model_id = c₂.model_id ∧ c₁.lora_id = c₂.lora_id ∧ c₁.platform = c₂.platform ∧
    c₁.qtype = c₂.qtype ∧ c₁.hybrid_rate = c₂.hybrid_rate ∧
    c₁.optimization ≤ 1 ∧ c₂.optimization ≤ 1 ∧ c₁.optimization ≠ c₂.optimization) ∨
  (c₁.model_id = c₂.model_id ∧ c₁.lora_id = c₂.lora_id ∧ c₁.qtype = c₂.qtype ∧
    c₁.hybrid_rate = c₂.hybrid_rate ∧ c₁.optimization = c₂.optimization ∧
    c₁.platform ≠ c₂.platform) ∨
  (c₁.model_id = c₂.model_id ∧ c₁.platform = c₂.platform ∧ c₁.qtype = c₂.qtype ∧
    c₁.hybrid_rate = c₂.hybrid_rate ∧ c₁.optimization = c₂.optimization ∧
    c₁.lora_id = some "" ∧ c₂.lora_id ≠ some "")

/-- The status returned by the load step the selector dispatches to. -/
def loadStatus (c : PipelineConfig) (w : World) : Int :=
  if c.library_type = "HF" then w.loadHF else w.loadGGUF

/-- A world where every external call succeeds.  The LoRA snapshot outcome is
an error, modelling `snapshot_download(repo_id="", local_dir=None)` raising
(the driver always reaches that call with the empty-string sentinel); the
surrounding bare `except` catches it. -/
def okWorld : World :=
  { snapshotBase := .ok "/models/base"
    snapshotLora := .error "HFValidationError"
    loadHF := 0, loadGGUF := 0, build := 0, exportRk := 0
    hfToken := "hf_token"
    loginRaises := none
    whoamiResult := .ok "user"
    repoCheckOutcome := .accessible
    createRepo := .ok "https://huggingface.co/user/x"
    cardLoad := .ok "card"
    cardSave := .ok ()
    uploadFolder := .ok () }

/-- `okWorld` with a failing engine build step (status 7). -/
def wBuildFail : World := { okWorld with build := 7 }

/-- `okWorld` with the base-model download raising a hub error (a
`RepositoryNotFoundError`, which is not a `RuntimeError`). -/
def wBaseDownloadFail : World := { okWorld with snapshotBase := .error "RepositoryNotFoundError" }

/-- A concrete formatting function standing for Python float formatting; the
claims never depend on its values. -/
def fmtQ : ℚ → String := fun _ => "0.0"

/-- Requests for the C1 witness: identical except for `hybrid_rate`. -/
def cfgRateA : PipelineConfig := pipelineOfCombo "org/llama-x" "w8a8" "0.0" .rk3588 true

/-- Second request of the C1 witness, `hybrid_rate = "0.5"`. -/
def cfgRateB : PipelineConfig := pipelineOfCombo "org/llama-x" "w8a8" "0.5" .rk3588 true

/-- The `ResolvedNames` that `build_vars` yields on `cfgRateA`. -/
def resRateA : ResolvedNames :=
  { npu_cores := some 3, device := "cpu", model_name := "llama-x"
    model_dir := "./models/llama-x/"
    name_suffix := "rk3588-w8a8-opt-1-hybrid-ratio-0.0"
    lora_name := none, lora_dir := none, lorapath := none
    export_name := "llama-x-rk3588-w8a8-opt-1-hybrid-ratio-0.0"
    export_path := "./models/llama-x-rk3588/", rkllm_version := "1.1.4" }

/-- The `ResolvedNames` that `build_vars` yields on `cfgRateB`. -/
def resRateB : ResolvedNames :=
  { npu_cores := some 3, device := "cpu", model_name := "llama-x"
    model_dir := "./models/llama-x/"
    name_suffix := "rk3588-w8a8-opt-1-hybrid-ratio-0.5"
    lora_name := none, lora_dir := none, lorapath := none
    export_name := "llama-x-rk3588-w8a8-opt-1-hybrid-ratio-0.5"
    export_path := "./models/llama-x-rk3588/", rkllm_version := "1.1.4" }

/-- A world where both the login attempt and the subsequent `whoami` call
fail (an invalid token). -/
def wAuthFail : World := { okWorld with
  loginRaises := some "Invalid token"
  whoamiResult := .error "401 Client Error: Unauthorized" }

/-- A world where the login attempt fails but `whoami` succeeds. -/
def wLoginWarn : World := { okWorld with loginRaises := some "Invalid token" }

/-- Is this event the repo-check message? -/
def Event.isRepoCheckMsg : Event → Bool
  | .repoCheckMsg _ => true
  | _ => false

def WorldCompletes (m : String) (w : World) : Prop :=
  (afterSlash m).isSome ∧ (∃ u, w.whoamiResult = .ok u) ∧
    (∃ p, w.snapshotBase = .ok p) ∧ (∃ t, w.cardLoad = .ok t) ∧
    w.uploadFolder = .ok ()

/-- Worlds for the C4 counterexample: the first model's base download raises
a hub error (`RepositoryNotFoundError`, not a `RuntimeError`); everything
else succeeds. -/
def worldsHubFail : String → String → ℚ → World :=
  fun m _ _ => if m = "o/a" then wBaseDownloadFail else okWorld

/-- Worlds for the C4 witness: the middle model's engine build step fails
with status 7; every hub call succeeds. -/
def worldsMidBuildFail : String → String → ℚ → World :=
  fun m _ _ => if m = "o/b" then wBuildFail else okWorld

/-- Is this event the driver's conversion-failure log line? -/
def Event.isConvFailedLog : Event → Bool
  | .convFailedLog _ => true
  | _ => false

/-! ## Lemmas and claim theorems -/

lemma suffix_chain_inj_platform {pl₁ pl₂ : String} (q o hr : String)
    (h : pl₁ ++ "-" ++ q ++ "-opt-" ++ o ++ "-hybrid-ratio-" ++ hr
       = pl₂ ++ "-" ++ q ++ "-opt-" ++ o ++ "-hybrid-ratio-" ++ hr) : pl₁ = pl₂ := by
  have hd := congrArg String.data h
  simp only [String.data_append, List.append_assoc] at hd
  exact String.ext (List.append_cancel_right hd)

lemma suffix_chain_inj_qtype (pl o hr : String) {q₁ q₂ : String}
    (h : pl ++ "-" ++ q₁ ++ "-opt-" ++ o ++ "-hybrid-ratio-" ++ hr
       = pl ++ "-" ++ q₂ ++ "-opt-" ++ o ++ "-hybrid-ratio-" ++ hr) : q₁ = q₂ := by
  have hd := congrArg String.data h
  simp only [String.data_append, List.append_assoc] at hd
  replace hd := List.append_cancel_left hd
  replace hd := List.append_cancel_left hd
  exact String.ext (List.append_cancel_right hd)

lemma suffix_chain_inj_opt (pl q hr : String) {o₁ o₂ : String}
    (h : pl ++ "-" ++ q ++ "-opt-" ++ o₁ ++ "-hybrid-ratio-" ++ hr
       = pl ++ "-" ++ q ++ "-opt-" ++ o₂ ++ "-hybrid-ratio-" ++ hr) : o₁ = o₂ := by
  have hd := congrArg String.data h
  simp only [String.data_append, List.append_assoc] at hd
  replace hd := List.append_cancel_left hd
  replace hd := List.append_cancel_left hd
  replace hd := List.append_cancel_left hd
  replace hd := List.append_cancel_left hd
  exact String.ext (List.append_cancel_right hd)

lemma suffix_chain_inj_rate (pl q o : String) {hr₁ hr₂ : String}
    (h : pl ++ "-" ++ q ++ "-opt-" ++ o ++ "-hybrid-ratio-" ++ hr₁
       = pl ++ "-" ++ q ++ "-opt-" ++ o ++ "-hybrid-ratio-" ++ hr₂) : hr₁ = hr₂ := by
  have hd := congrArg String.data h
  simp only [String.data_append, List.append_assoc] at hd
  replace hd := List.append_cancel_left hd
  replace hd := List.append_cancel_left hd
  replace hd := List.append_cancel_left hd
  replace hd := List.append_cancel_left hd
  replace hd := List.append_cancel_left hd
  replace hd := List.append_cancel_left hd
  exact String.ext hd

lemma toString_nat_le_one_inj {a b : Nat} (ha : a ≤ 1) (hb : b ≤ 1)
    (h : toString a = toString b) : a = b := by
  interval_cases a <;> interval_cases b <;> revert h <;> decide

lemma name_suffix_congr {c₁ c₂ : PipelineConfig} (hpl : c₁.platform = c₂.platform)
    (hq : c₁.qtype = c₂.qtype) (ho : c₁.optimization = c₂.optimization)
    (hhr : c₁.hybrid_rate = c₂.hybrid_rate) : name_suffix c₁ = name_suffix c₂ := by
  unfold name_suffix
  rw [hpl, hq, ho, hhr]

lemma exportForm_inj_suffix (mn : String) (ln : Option String) {s₁ s₂ : String}
    (h : exportForm mn ln s₁ = exportForm mn ln s₂) : s₁ = s₂ := by
  cases ln with
  | none =>
    unfold exportForm at h
    have hd := congrArg String.data h
    simp only [String.data_append, List.append_assoc] at hd
    replace hd := List.append_cancel_left hd
    replace hd := List.append_cancel_left hd
    exact String.ext hd
  | some l =>
    unfold exportForm at h
    have hd := congrArg String.data h
    simp only [String.data_append, List.append_assoc] at hd
    replace hd := List.append_cancel_left hd
    replace hd := List.append_cancel_left hd
    replace hd := List.append_cancel_left hd
    replace hd := List.append_cancel_left hd
    exact String.ext hd

lemma exportForm_ne_of_presence (mn l s : String) :
    exportForm mn none s ≠ exportForm mn (some l) s := by
  intro h
  have hlen := congrArg String.length h
  simp only [exportForm, String.length_append] at hlen
  have h1 : ("-" : String).length = 1 := rfl
  rw [h1] at hlen
  omega

/-- Characterisation of a successful `build_vars`: the model name comes from
the `model_id`, and the export name follows the (lora-optional) template with
`name_suffix`. -/
lemma build_vars_spec {c : PipelineConfig} {r : ResolvedNames}
    (h : build_vars c = some r) :
    ∃ mn, afterSlash c.model_id = some mn ∧ r.model_name = mn ∧
      r.export_name = exportForm mn r.lora_name (name_suffix c) ∧
      ((c.lora_id = some "" ∧ r.lora_name = none) ∨
        (∃ lid ln, c.lora_id = some lid ∧ lid ≠ "" ∧ afterSlash lid = some ln ∧
          r.lora_name = some ln)) := by
  unfold build_vars at h
  cases haf : afterSlash c.model_id with
  | none => rw [haf] at h; exact absurd h (by simp)
  | some mn =>
    rw [haf] at h
    dsimp only at h
    by_cases hl : c.lora_id = some ""
    · rw [if_pos hl] at h
      injection h with h
      subst h
      exact ⟨mn, rfl, rfl, rfl, Or.inl ⟨hl, rfl⟩⟩
    · rw [if_neg hl] at h
      cases hlid : c.lora_id with
      | none => rw [hlid] at h; exact absurd h (by simp)
      | some lid =>
        rw [hlid] at h
        dsimp only at h
        cases haf2 : afterSlash lid with
        | none => rw [haf2] at h; exact absurd h (by simp)
        | some ln =>
          rw [haf2] at h
          injection h with h
          subst h
          refine ⟨mn, rfl, rfl, rfl, Or.inr ⟨lid, ln, rfl, ?_, haf2, rfl⟩⟩
          intro he
          exact hl (by rw [hlid, he])

lemma lora_name_eq_of_lora_id_eq {c₁ c₂ : PipelineConfig} {r₁ r₂ : ResolvedNames}
    (h₁ : build_vars c₁ = some r₁) (h₂ : build_vars c₂ = some r₂)
    (hl : c₁.lora_id = c₂.lora_id) : r₁.lora_name = r₂.lora_name := by
  obtain ⟨_, _, _, _, hbr₁⟩ := build_vars_spec h₁
  obtain ⟨_, _, _, _, hbr₂⟩ := build_vars_spec h₂
  rcases hbr₁ with ⟨he₁, hn₁⟩ | ⟨lid₁, ln₁, hid₁, hne₁, haf₁, hn₁⟩ <;>
    rcases hbr₂ with ⟨he₂, hn₂⟩ | ⟨lid₂, ln₂, hid₂, hne₂, haf₂, hn₂⟩
  · rw [hn₁, hn₂]
  · exact absurd (by rw [← hl, he₁] : c₂.lora_id = some "") (by rw [hid₂]; simp [hne₂])
  · exact absurd (by rw [hl, he₂] : c₁.lora_id = some "") (by rw [hid₁]; simp [hne₁])
  · have : lid₁ = lid₂ := Option.some.inj (hid₁.symm.trans (hl.trans hid₂))
    subst this
    rw [haf₁] at haf₂
    rw [hn₁, hn₂, Option.some.inj haf₂]

/-- C1: for every pair of conversion requests that differ in exactly one of
qtype, hybrid_rate, optimization_level, platform, or presence of a lora_id
(all other fields equal), when `build_vars` succeeds on both, the derived
`export_name` strings differ; in particular two requests differing only in
hybrid_rate do not collide on `export_name`. -/
theorem export_name_injective {c₁ c₂ : PipelineConfig} {r₁ r₂ : ResolvedNames}
    (h₁ : build_vars c₁ = some r₁) (h₂ : build_vars c₂ = some r₂)
    (hd : DiffersInOne c₁ c₂) : r₁.export_name ≠ r₂.export_name := by
  intro heq
  obtain ⟨mn₁, haf₁, hmn₁, hen₁, hbr₁⟩ := build_vars_spec h₁
  obtain ⟨mn₂, haf₂, hmn₂, hen₂, hbr₂⟩ := build_vars_spec h₂
  rcases hd with ⟨hmid, hlor, hpl, hhr, ho, hne⟩ | ⟨hmid, hlor, hpl, hq, ho, hne⟩ |
    ⟨hmid, hlor, hpl, hq, hhr, hb₁, hb₂, hne⟩ | ⟨hmid, hlor, hq, hhr, ho, hne⟩ |
    ⟨hmid, hpl, hq, hhr, ho, hl₁, hl₂⟩
  · have hmn : mn₁ = mn₂ := by
      rw [← hmid] at haf₂
      exact Option.some.inj (haf₁.symm.trans haf₂)
    have hln : r₁.lora_name = r₂.lora_name := lora_name_eq_of_lora_id_eq h₁ h₂ hlor
    rw [hen₁, hen₂, ← hmn, ← hln] at heq
    have hs := exportForm_inj_suffix _ _ heq
    unfold name_suffix at hs
    rw [hpl, ho, hhr] at hs
    exact hne (suffix_chain_inj_qtype _ _ _ hs)
  · have hmn : mn₁ = mn₂ := by
      rw [← hmid] at haf₂
      exact Option.some.inj (haf₁.symm.trans haf₂)
    have hln : r₁.lora_name = r₂.lora_name := lora_name_eq_of_lora_id_eq h₁ h₂ hlor
    rw [hen₁, hen₂, ← hmn, ← hln] at heq
    have hs := exportForm_inj_suffix _ _ heq
    unfold name_suffix at hs
    rw [hpl, hq, ho] at hs
    exact hne (suffix_chain_inj_rate _ _ _ hs)
  · have hmn : mn₁ = mn₂ := by
      rw [← hmid] at haf₂
      exact Option.some.inj (haf₁.symm.trans haf₂)
    have hln : r₁.lora_name = r₂.lora_name := lora_name_eq_of_lora_id_eq h₁ h₂ hlor
    rw [hen₁, hen₂, ← hmn, ← hln] at heq
    have hs := exportForm_inj_suffix _ _ heq
    unfold name_suffix at hs
    rw [hpl, hq, hhr] at hs
    exact hne (toString_nat_le_one_inj hb₁ hb₂ (suffix_chain_inj_opt _ _ _ hs))
  · have hmn : mn₁ = mn₂ := by
      rw [← hmid] at haf₂
      exact Option.some.inj (haf₁.symm.trans haf₂)
    have hln : r₁.lora_name = r₂.lora_name := lora_name_eq_of_lora_id_eq h₁ h₂ hlor
    rw [hen₁, hen₂, ← hmn, ← hln] at heq
    have hs := exportForm_inj_suffix _ _ heq
    unfold name_suffix at hs
    rw [hq, ho, hhr] at hs
    exact hne (suffix_chain_inj_platform _ _ _ hs)
  · have hmn : mn₁ = mn₂ := by
      rw [← hmid] at haf₂
      exact Option.some.inj (haf₁.symm.trans haf₂)
    have hln₁ : r₁.lora_name = none := by
      rcases hbr₁ with ⟨_, hn⟩ | ⟨lid, ln, hid, hlne, _, _⟩
      · exact hn
      · exact absurd (Option.some.inj (hid.symm.trans hl₁)) hlne
    have hb₂ : ∃ lid ln, c₂.lora_id = some lid ∧ lid ≠ "" ∧ afterSlash lid = some ln ∧
        r₂.lora_name = some ln := by
      rcases hbr₂ with ⟨he, _⟩ | hb
      · exact absurd he hl₂
      · exact hb
    obtain ⟨lid, ln, hid₂, hlne₂, haf₂l, hln₂⟩ := hb₂
    have hsfx : name_suffix c₁ = name_suffix c₂ := name_suffix_congr hpl hq ho hhr
    rw [hen₁, hen₂, ← hmn, hln₁, hln₂, ← hsfx] at heq
    exact exportForm_ne_of_presence _ _ _ heq

/-- C1 witness: two concrete requests differing only in hybrid_rate resolve
to different export names. -/
theorem export_name_injective_witness :
    build_vars cfgRateA = some resRateA ∧ build_vars cfgRateB = some resRateB ∧
      DiffersInOne cfgRateA cfgRateB ∧ resRateA.export_name ≠ resRateB.export_name :=
  ⟨by decide, by decide, Or.inr (Or.inl ⟨rfl, rfl, rfl, rfl, rfl, by decide⟩),
    @export_name_injective cfgRateA cfgRateB resRateA resRateB (by decide) (by decide)
      (Or.inr (Or.inl ⟨rfl, rfl, rfl, rfl, rfl, by decide⟩))⟩

/-- C2 (evaluation at the failing input): with the driver's empty-string LoRA
sentinel, name resolution does set `lora_name`/`lora_dir`/`lorapath` to null
and the overall request still succeeds, but the conversion sequence does NOT
skip the adapter-acquisition step: `remote_pipeline_to_local` tests
`lora_id == None` while the sentinel is `""`, so the LoRA download is
attempted (its failure is swallowed by the bare `except`). -/
theorem lora_sentinel_mismatch :
    cfgRateA.lora_id = some "" ∧
      build_vars cfgRateA = some resRateA ∧
      resRateA.lora_name = none ∧ resRateA.lora_dir = none ∧ resRateA.lorapath = none ∧
      Event.downloadLora (some "") ∈ (remote_pipeline_to_local cfgRateA resRateA okWorld).1 ∧
      (remote_pipeline_to_local cfgRateA resRateA okWorld).2 = .ok () :=
  ⟨rfl, by decide, rfl, rfl, rfl, by decide, rfl⟩

/-- C3: a non-zero status from the engine load, build or export call makes
`remote_pipeline_to_local` raise `RuntimeError` at that step, surfacing the
raw status code in the message, and no subsequent step runs (a load failure
emits no build and no export event; a build failure emits no export
event). -/
theorem engine_fail_fast (c : PipelineConfig) (r : ResolvedNames) (w : World) (p : String)
    (hlib : c.library_type = "HF" ∨ c.library_type = "GGUF")
    (hsb : w.snapshotBase = .ok p) :
    (loadStatus c w ≠ 0 →
      (remote_pipeline_to_local c r w).2 =
        .error (.runtimeError ("Failed to load model: " ++ toString (loadStatus c w))) ∧
      Event.buildStep ∉ (remote_pipeline_to_local c r w).1 ∧
      ∀ pth, Event.exportStep pth ∉ (remote_pipeline_to_local c r w).1) ∧
    (loadStatus c w = 0 → w.build ≠ 0 →
      (remote_pipeline_to_local c r w).2 =
        .error (.runtimeError ("Failed to build model: " ++ toString w.build)) ∧
      ∀ pth, Event.exportStep pth ∉ (remote_pipeline_to_local c r w).1) ∧
    (loadStatus c w = 0 → w.build = 0 → w.exportRk ≠ 0 →
      (remote_pipeline_to_local c r w).2 =
        .error (.runtimeError ("Failed to export model: " ++ toString w.exportRk))) := by
  unfold remote_pipeline_to_local buildAndExportSteps loadStatus
  rw [hsb]
  dsimp only
  rcases hlib with hl | hl
  · rw [hl]
    by_cases hlid : c.lora_id = none <;>
      by_cases hL : w.loadHF = 0 <;>
        by_cases hB : w.build = 0 <;>
          by_cases hE : w.exportRk = 0 <;>
            simp [hlid, hL, hB, hE]
  · rw [hl]
    by_cases hlid : c.lora_id = none <;>
      by_cases hL : w.loadGGUF = 0 <;>
        by_cases hB : w.build = 0 <;>
          by_cases hE : w.exportRk = 0 <;>
            simp [hlid, hL, hB, hE]

/-- C3 witness: a concrete request with engine build status 7: the pipeline
stops with `RuntimeError` carrying the code 7 and never reaches export. -/
theorem engine_fail_fast_witness :
    (cfgRateA.library_type = "HF" ∨ cfgRateA.library_type = "GGUF") ∧
      wBuildFail.snapshotBase = .ok "/models/base" ∧
      loadStatus cfgRateA wBuildFail = 0 ∧ wBuildFail.build ≠ 0 ∧
      ((remote_pipeline_to_local cfgRateA resRateA wBuildFail).2 =
          .error (.runtimeError ("Failed to build model: " ++ toString wBuildFail.build)) ∧
        ∀ pth, Event.exportStep pth ∉ (remote_pipeline_to_local cfgRateA resRateA wBuildFail).1) :=
  ⟨Or.inl rfl, rfl, rfl, by decide,
    (engine_fail_fast cfgRateA resRateA wBuildFail "/models/base" (Or.inl rfl) rfl).2.1 rfl
      (by decide)⟩

/-- C7 counterexample: with an invalid token the login failure is caught and
logged, but `login_to_hf` then raises from the unprotected `whoami` call, so
the call does not return normally: it aborts the pipeline. -/
theorem login_aborts_on_bad_token :
    (login_to_hf wAuthFail).2 = .error (.otherError "401 Client Error: Unauthorized") ∧
      Event.loginWarn "Login failed: Invalid token" ∈ (login_to_hf wAuthFail).1 :=
  ⟨rfl, by decide⟩

/-- C7 amended: the `login(...)` failure itself is caught and only logged as
a warning, and `login_to_hf` returns normally whenever the subsequent
unprotected `whoami` call succeeds, whatever the login outcome was. -/
theorem login_warn_only_when_whoami_ok (w : World) (u : String)
    (hw : w.whoamiResult = .ok u) :
    (login_to_hf w).2 = .ok u ∧
      ∀ e, w.loginRaises = some e →
        Event.loginWarn ("Login failed: " ++ e) ∈ (login_to_hf w).1 := by
  constructor
  · unfold login_to_hf
    rw [hw]
  · intro e he
    unfold login_to_hf
    rw [hw, he]
    simp

/-- C7 witness: a failing login with a working `whoami`: the warning is
logged and the call returns normally. -/
theorem login_warn_only_witness :
    wLoginWarn.whoamiResult = .ok "user" ∧
      ((login_to_hf wLoginWarn).2 = .ok "user" ∧
        ∀ e, wLoginWarn.loginRaises = some e →
          Event.loginWarn ("Login failed: " ++ e) ∈ (login_to_hf wLoginWarn).1) :=
  ⟨rfl, login_warn_only_when_whoami_ok wLoginWarn "user" rfl⟩

/-- C8: the `repo_check` outcome (accessible, gated, or not-found) is
advisory only: a driver iteration run under any two outcomes has the same
uncaught-exception result and the same event trace apart from the printed
check message itself; no later step is skipped or aborted by a negative
check. -/
theorem repo_check_advisory (fmt : ℚ → String) (pl : Platform) (opt : Bool)
    (m q : String) (rate : ℚ) (w : World) (o₁ o₂ : RepoOutcome) :
    (processCombo fmt pl opt m q rate { w with repoCheckOutcome := o₁ }).2 =
      (processCombo fmt pl opt m q rate { w with repoCheckOutcome := o₂ }).2 ∧
    (processCombo fmt pl opt m q rate { w with repoCheckOutcome := o₁ }).1.filter
        (fun e => !e.isRepoCheckMsg) =
      (processCombo fmt pl opt m q rate { w with repoCheckOutcome := o₂ }).1.filter
        (fun e => !e.isRepoCheckMsg) := by
  have elog : ∀ o, login_to_hf { w with repoCheckOutcome := o } = login_to_hf w :=
    fun _ => rfl
  have erem : ∀ o c r, remote_pipeline_to_local c r { w with repoCheckOutcome := o } =
      remote_pipeline_to_local c r w := fun _ _ _ => rfl
  have eup : ∀ o a b d e, upload_to_repo a b d e { w with repoCheckOutcome := o } =
      upload_to_repo a b d e w := fun _ _ _ _ _ => rfl
  simp only [processCombo, elog, erem, eup]
  cases hb : build_vars (pipelineOfCombo m q (fmt rate) pl opt) with
  | none => exact ⟨rfl, rfl⟩
  | some r =>
    cases hlg : (login_to_hf w).2 with
    | error e => exact ⟨rfl, rfl⟩
    | ok username =>
      cases hrp : (remote_pipeline_to_local (pipelineOfCombo m q (fmt rate) pl opt) r w).2 with
      | error pe =>
        cases pe <;> simp [hrp, List.filter_append, Event.isRepoCheckMsg]
      | ok _ =>
        cases hu : (upload_to_repo username r.model_name
            (pipelineOfCombo m q (fmt rate) pl opt).platform r.rkllm_version w).outcome with
        | error pe => cases pe <;> simp [hrp, hu, List.filter_append, Event.isRepoCheckMsg]
        | ok _ => simp [hrp, hu, List.filter_append, Event.isRepoCheckMsg]

/-- `build_vars` on a driver-constructed pipeline: with a well-formed model
id it yields the no-LoRA record. -/
lemma build_vars_driver_ex (m q rs : String) (pl : Platform) (opt : Bool) (mn : String)
    (hmn : afterSlash m = some mn) :
    build_vars (pipelineOfCombo m q rs pl opt) = some
      { npu_cores :=
          if pl.str = "rk3588" then some 3 else if pl.str = "rk3576" then some 2 else none
        device := "cpu"
        model_name := mn
        model_dir := "./models/" ++ mn ++ "/"
        name_suffix := name_suffix (pipelineOfCombo m q rs pl opt)
        lora_name := none
        lora_dir := none
        lorapath := none
        export_name := mn ++ "-" ++ name_suffix (pipelineOfCombo m q rs pl opt)
        export_path := "./models/" ++ mn ++ "-" ++ pl.str ++ "/"
        rkllm_version := "1.1.4" } := by
  unfold build_vars pipelineOfCombo
  dsimp only
  rw [hmn]
  dsimp only
  rw [if_pos rfl]

/-- `login_to_hf` returns the username when `whoami` succeeds. -/
lemma login_ok_of_whoami (w : World) (u : String) (hw : w.whoamiResult = .ok u) :
    (login_to_hf w).2 = .ok u := by
  unfold login_to_hf
  rw [hw]

/-- With the HF loader and a successful base download, the pipeline either
succeeds or raises a `RuntimeError`. -/
lemma remote_hf_outcome_cases (c : PipelineConfig) (r : ResolvedNames) (w : World) (p : String)
    (hHF : c.library_type = "HF") (hsb : w.snapshotBase = .ok p) :
    (remote_pipeline_to_local c r w).2 = .ok () ∨
      ∃ msg, (remote_pipeline_to_local c r w).2 = .error (.runtimeError msg) := by
  unfold remote_pipeline_to_local buildAndExportSteps
  rw [hsb, hHF]
  dsimp only
  by_cases hlid : c.lora_id = none <;>
    by_cases hL : w.loadHF = 0 <;>
      by_cases hB : w.build = 0 <;>
        by_cases hE : w.exportRk = 0 <;>
          simp [hlid, hL, hB, hE]

/-- A failing build step raises `RuntimeError` with the status code. -/
lemma remote_hf_build_fail (c : PipelineConfig) (r : ResolvedNames) (w : World) (p : String)
    (hHF : c.library_type = "HF") (hsb : w.snapshotBase = .ok p)
    (hL : w.loadHF = 0) (hB : w.build ≠ 0) :
    (remote_pipeline_to_local c r w).2 =
      .error (.runtimeError ("Failed to build model: " ++ toString w.build)) := by
  unfold remote_pipeline_to_local buildAndExportSteps
  rw [hsb, hHF]
  dsimp only
  by_cases hlid : c.lora_id = none <;> simp [hlid, hL, hB]

/-- `upload_to_repo` completes when card load and folder upload succeed
(`create_repo` and card save failures are caught). -/
lemma upload_outcome_ok (a b d e : String) (w : World) (t : String)
    (hc : w.cardLoad = .ok t) (hu : w.uploadFolder = .ok ()) :
    (upload_to_repo a b d e w).outcome = .ok () := by
  unfold upload_to_repo build_card
  cases hcr : w.createRepo <;> cases hcs : w.cardSave <;> simp [hcr, hcs, hc, hu]

/-- Every driver iteration records its combination start event. -/
lemma comboStart_mem (fmt : ℚ → String) (pl : Platform) (opt : Bool)
    (m q : String) (rate : ℚ) (w : World) :
    Event.comboStart m q rate ∈ (processCombo fmt pl opt m q rate w).1 := by
  simp only [processCombo]
  cases hb : build_vars (pipelineOfCombo m q (fmt rate) pl opt) with
  | none => simp
  | some r =>
    cases hlg : (login_to_hf w).2 with
    | error e => simp
    | ok u =>
      cases hrp : (remote_pipeline_to_local (pipelineOfCombo m q (fmt rate) pl opt) r w).2 with
      | error pe => cases pe <;> simp [hrp]
      | ok _ =>
        cases hu : (upload_to_repo u r.model_name
            (pipelineOfCombo m q (fmt rate) pl opt).platform r.rkllm_version w).outcome with
        | error pe => cases pe <;> simp [hrp, hu]
        | ok _ => simp [hrp, hu]

/-- A driver iteration whose unguarded hub calls succeed raises no uncaught
exception, whatever the engine statuses. -/
lemma processCombo_completes (fmt : ℚ → String) (pl : Platform) (opt : Bool)
    (m q : String) (rate : ℚ) (w : World) (hc : WorldCompletes m w) :
    (processCombo fmt pl opt m q rate w).2 = none := by
  obtain ⟨hms, ⟨u, hwho⟩, ⟨p, hsb⟩, ⟨t, hcard⟩, hupl⟩ := hc
  obtain ⟨mn, hmn⟩ := Option.isSome_iff_exists.mp hms
  have hbv := build_vars_driver_ex m q (fmt rate) pl opt mn hmn
  have hlg := login_ok_of_whoami w u hwho
  simp only [processCombo]
  rw [hbv, hlg]
  dsimp only
  rcases remote_hf_outcome_cases (pipelineOfCombo m q (fmt rate) pl opt) _ w p rfl hsb with
    hrp | ⟨msg, hrp⟩
  · rw [hrp]
    have hup := upload_outcome_ok u mn (pipelineOfCombo m q (fmt rate) pl opt).platform
      "1.1.4" w t hcard hupl
    simp [hup]
  · rw [hrp]

/-- A caught `RuntimeError` leaves the conversion-failure log line in the
iteration trace. -/
lemma processCombo_logs_runtime (fmt : ℚ → String) (pl : Platform) (opt : Bool)
    (m q : String) (rate : ℚ) (w : World) (r : ResolvedNames) (u msg : String)
    (hb : build_vars (pipelineOfCombo m q (fmt rate) pl opt) = some r)
    (hlg : (login_to_hf w).2 = .ok u)
    (hrp : (remote_pipeline_to_local (pipelineOfCombo m q (fmt rate) pl opt) r w).2 =
      .error (.runtimeError msg)) :
    Event.convFailedLog ("Model conversion failed: " ++ msg) ∈
      (processCombo fmt pl opt m q rate w).1 := by
  simp only [processCombo]
  rw [hb, hlg]
  dsimp only
  rw [hrp]
  simp

/-- If no iteration raises an uncaught exception, the loop completes and
keeps every iteration trace. -/
lemma runCombos_trace_complete (fmt : ℚ → String) (pl : Platform) (opt : Bool)
    (worlds : String → String → ℚ → World) (l : List (String × String × ℚ))
    (h : ∀ m q r, (m, q, r) ∈ l →
      (processCombo fmt pl opt m q r (worlds m q r)).2 = none) :
    (runCombos fmt pl opt worlds l).2 = .ok () ∧
      ∀ m q r, (m, q, r) ∈ l →
        ∀ e, e ∈ (processCombo fmt pl opt m q r (worlds m q r)).1 →
          e ∈ (runCombos fmt pl opt worlds l).1 := by
  induction l with
  | nil => exact ⟨rfl, by simp⟩
  | cons hd tl ih =>
    obtain ⟨m₀, q₀, r₀⟩ := hd
    have h₀ : (processCombo fmt pl opt m₀ q₀ r₀ (worlds m₀ q₀ r₀)).2 = none :=
      h m₀ q₀ r₀ (List.mem_cons_self _ _)
    have htl : ∀ m q r, (m, q, r) ∈ tl →
        (processCombo fmt pl opt m q r (worlds m q r)).2 = none :=
      fun m q r hm => h m q r (List.mem_cons_of_mem _ hm)
    obtain ⟨ihout, ihmem⟩ := ih htl
    refine ⟨?_, ?_⟩
    · simp only [runCombos]
      rw [h₀]
      exact ihout
    · intro m q r hm e he
      simp only [runCombos]
      rw [h₀]
      dsimp only
      rw [List.mem_append]
      rcases List.mem_cons.mp hm with heq | hmt
      · injection heq with h1 h23
        injection h23 with h2 h3
        subst h1
        subst h2
        subst h3
        exact Or.inl he
      · exact Or.inr (ihmem m q r hmt e he)

/-- C4 counterexample: a batch of two models where the first one's base-model
download raises a hub error.  The error is not caught (only `RuntimeError`
is), the second combination is never reached, and no conversion-failure log
line is emitted: one combination's fatal error aborts the remaining batch
unlogged. -/
theorem batch_abort_on_hub_error :
    (convert fmtQ ["o/a", "o/b"] ["w8a8"] [0] true .rk3588 worldsHubFail).2 =
        .error (.otherError "RepositoryNotFoundError") ∧
      Event.comboStart "o/b" "w8a8" 0 ∉
        (convert fmtQ ["o/a", "o/b"] ["w8a8"] [0] true .rk3588 worldsHubFail).1 ∧
      ((convert fmtQ ["o/a", "o/b"] ["w8a8"] [0] true .rk3588 worldsHubFail).1.all
        fun e => !e.isConvFailedLog) = true :=
  ⟨rfl, by decide, by decide⟩

/-- C4 amended: the driver's per-combination handler catches only
`RuntimeError` (the engine load/build/export failures and the selector
check), logging just the exception text without the combination; provided
every combination's unguarded hub calls succeed (`WorldCompletes`), the
whole batch completes with every combination reached even when engine steps
fail, and a combination whose build step fails leaves a log line carrying
only the exception message.  Fatal errors outside that class propagate and
abort the batch (see the counterexample). -/
theorem batch_isolation_amended (fmt : ℚ → String) (pl : Platform) (opt : Bool)
    (model_ids qtypes : List String) (rates : List ℚ)
    (worlds : String → String → ℚ → World)
    (h : ∀ m q r, (m, q, r) ∈ combos model_ids qtypes rates →
      WorldCompletes m (worlds m q r)) :
    (runCombos fmt pl opt worlds (combos model_ids qtypes rates)).2 = .ok () ∧
      (∀ m q r, (m, q, r) ∈ combos model_ids qtypes rates →
        Event.comboStart m q r ∈
          (runCombos fmt pl opt worlds (combos model_ids qtypes rates)).1) ∧
      (∀ m q r, (m, q, r) ∈ combos model_ids qtypes rates →
        (worlds m q r).loadHF = 0 → (worlds m q r).build ≠ 0 →
        Event.convFailedLog ("Model conversion failed: " ++
            ("Failed to build model: " ++ toString (worlds m q r).build)) ∈
          (runCombos fmt pl opt worlds (combos model_ids qtypes rates)).1) := by
  have hc : ∀ m q r, (m, q, r) ∈ combos model_ids qtypes rates →
      (processCombo fmt pl opt m q r (worlds m q r)).2 = none :=
    fun m q r hm => processCombo_completes fmt pl opt m q r _ (h m q r hm)
  obtain ⟨hout, hmem⟩ := runCombos_trace_complete fmt pl opt worlds _ hc
  refine ⟨hout, fun m q r hm => hmem m q r hm _ (comboStart_mem fmt pl opt m q r _),
    fun m q r hm hL hB => ?_⟩
  obtain ⟨hms, ⟨u, hwho⟩, ⟨p, hsb⟩, -, -⟩ := h m q r hm
  obtain ⟨mn, hmn⟩ := Option.isSome_iff_exists.mp hms
  obtain ⟨rr, hbv⟩ : ∃ rr, build_vars (pipelineOfCombo m q (fmt r) pl opt) = some rr :=
    ⟨_, build_vars_driver_ex m q (fmt r) pl opt mn hmn⟩
  have hlg := login_ok_of_whoami (worlds m q r) u hwho
  have hrp := remote_hf_build_fail (pipelineOfCombo m q (fmt r) pl opt) rr
    (worlds m q r) p rfl hsb hL hB
  exact hmem m q r hm _
    (processCombo_logs_runtime fmt pl opt m q r (worlds m q r) rr u
      ("Failed to build model: " ++ toString (worlds m q r).build) hbv hlg hrp)

/-- C4 witness: a three-model batch whose middle model's engine build fails
with status 7: the batch still completes, every combination (in particular
the last one) is reached, and the failure is logged. -/
theorem batch_isolation_amended_witness :
    (∀ m q r, (m, q, r) ∈ combos ["o/a", "o/b", "o/c"] ["w8a8"] [0] →
        WorldCompletes m (worldsMidBuildFail m q r)) ∧
      (runCombos fmtQ Platform.rk3588 true worldsMidBuildFail
          (combos ["o/a", "o/b", "o/c"] ["w8a8"] [0])).2 = .ok () ∧
      Event.comboStart "o/c" "w8a8" 0 ∈
        (runCombos fmtQ Platform.rk3588 true worldsMidBuildFail
          (combos ["o/a", "o/b", "o/c"] ["w8a8"] [0])).1 ∧
      Event.convFailedLog ("Model conversion failed: " ++
          ("Failed to build model: " ++ toString (worldsMidBuildFail "o/b" "w8a8" 0).build)) ∈
        (runCombos fmtQ Platform.rk3588 true worldsMidBuildFail
          (combos ["o/a", "o/b", "o/c"] ["w8a8"] [0])).1 := by
  have hcombos : combos ["o/a", "o/b", "o/c"] ["w8a8"] [0] =
      [("o/a", "w8a8", 0), ("o/b", "w8a8", 0), ("o/c", "w8a8", 0)] := by decide
  have hw : ∀ m q r, (m, q, r) ∈ combos ["o/a", "o/b", "o/c"] ["w8a8"] [0] →
      WorldCompletes m (worldsMidBuildFail m q r) := by
    intro m q r hm
    rw [hcombos] at hm
    simp only [List.mem_cons, List.not_mem_nil, or_false, Prod.mk.injEq] at hm
    rcases hm with ⟨rfl, rfl, rfl⟩ | ⟨rfl, rfl, rfl⟩ | ⟨rfl, rfl, rfl⟩ <;>
      exact ⟨by decide, ⟨"user", rfl⟩, ⟨"/models/base", rfl⟩, ⟨"card", rfl⟩, rfl⟩
  obtain ⟨h1, h2, h3⟩ := batch_isolation_amended fmtQ Platform.rk3588 true
    ["o/a", "o/b", "o/c"] ["w8a8"] [0] worldsMidBuildFail hw
  exact ⟨hw, h1, h2 "o/c" "w8a8" 0 (by decide),
    h3 "o/b" "w8a8" 0 (by decide) rfl (by decide)⟩

/-- C9: `mkpath` is idempotent: after a first call, a second call on the same
path changes no file-system state and performs no create (`false` = the
`os.makedirs` branch was not taken, so no error and no side effect). -/
theorem mkpath_idempotent (fs : List String) (p : String) :
    mkpath (mkpath fs p).1 p = ((mkpath fs p).1, false) := by
  unfold mkpath
  by_cases h : p ∈ fs <;> simp [h]

/-- With the HF loader, a successful download and all-zero engine statuses,
the pipeline succeeds and emits the export event for the artifact path. -/
lemma remote_hf_success (c : PipelineConfig) (r : ResolvedNames) (w : World) (p : String)
    (hHF : c.library_type = "HF") (hsb : w.snapshotBase = .ok p)
    (hL : w.loadHF = 0) (hB : w.build = 0) (hE : w.exportRk = 0) :
    (remote_pipeline_to_local c r w).2 = .ok () ∧
      Event.exportStep (r.export_path ++ r.export_name ++ ".rkllm") ∈
        (remote_pipeline_to_local c r w).1 := by
  unfold remote_pipeline_to_local buildAndExportSteps
  rw [hsb, hHF]
  dsimp only
  by_cases hlid : c.lora_id = none <;> simp [hlid, hL, hB, hE]

/-- `repo_url` holds the URL returned by a successful `create_repo`. -/
lemma upload_repo_url_some (a b d e : String) (w : World) (url : String)
    (hcr : w.createRepo = .ok url) :
    (upload_to_repo a b d e w).repo_url = some url := by
  unfold upload_to_repo build_card
  cases hcl : w.cardLoad <;> cases hcs : w.cardSave <;> cases huf : w.uploadFolder <;>
    simp [hcr, hcl, hcs, huf]

/-- `login_to_hf` emits no GGUF load event. -/
lemma login_no_gguf (w : World) : Event.loadGGUF ∉ (login_to_hf w).1 := by
  unfold login_to_hf
  cases w.loginRaises <;> cases w.whoamiResult <;> simp

/-- `upload_to_repo` emits no GGUF load event. -/
lemma upload_no_gguf (a b d e : String) (w : World) :
    Event.loadGGUF ∉ (upload_to_repo a b d e w).events := by
  unfold upload_to_repo build_card
  cases w.createRepo <;> cases w.cardLoad <;> cases w.cardSave <;> cases w.uploadFolder <;> simp

/-- With `library_type = "HF"` the pipeline never emits the GGUF load
event. -/
lemma remote_no_gguf (c : PipelineConfig) (r : ResolvedNames) (w : World)
    (hHF : c.library_type = "HF") :
    Event.loadGGUF ∉ (remote_pipeline_to_local c r w).1 := by
  unfold remote_pipeline_to_local buildAndExportSteps
  rw [hHF]
  cases w.snapshotBase <;> dsimp only <;>
    by_cases hlid : c.lora_id = none <;>
      by_cases hL : w.loadHF = 0 <;>
        by_cases hB : w.build = 0 <;>
          by_cases hE : w.exportRk = 0 <;>
            simp [hlid, hL, hB, hE]

/-- A driver iteration (which always sets `library_type = "HF"`) never
emits the GGUF load event. -/
lemma processCombo_no_gguf (fmt : ℚ → String) (pl : Platform) (opt : Bool)
    (m q : String) (rate : ℚ) (w : World) :
    Event.loadGGUF ∉ (processCombo fmt pl opt m q rate w).1 := by
  simp only [processCombo]
  cases hb : build_vars (pipelineOfCombo m q (fmt rate) pl opt) with
  | none => simp
  | some r =>
    cases hlg : (login_to_hf w).2 with
    | error e => simp [login_no_gguf w]
    | ok u =>
      cases hrp : (remote_pipeline_to_local (pipelineOfCombo m q (fmt rate) pl opt) r w).2 with
      | error pe =>
        cases pe <;>
          simp [hrp, List.mem_append, login_no_gguf w,
            remote_no_gguf (pipelineOfCombo m q (fmt rate) pl opt) r w rfl]
      | ok _ =>
        cases hu : (upload_to_repo u r.model_name
            (pipelineOfCombo m q (fmt rate) pl opt).platform r.rkllm_version w).outcome with
        | error pe =>
          cases pe <;>
            simp [hrp, hu, List.mem_append, login_no_gguf w,
              remote_no_gguf (pipelineOfCombo m q (fmt rate) pl opt) r w rfl,
              upload_no_gguf u r.model_name
                (pipelineOfCombo m q (fmt rate) pl opt).platform r.rkllm_version w]
        | ok _ =>
          simp [hrp, hu, List.mem_append, login_no_gguf w,
            remote_no_gguf (pipelineOfCombo m q (fmt rate) pl opt) r w rfl,
            upload_no_gguf u r.model_name
              (pipelineOfCombo m q (fmt rate) pl opt).platform r.rkllm_version w]

/-- Whenever `lora_id` is not Python `None` and the base download succeeds,
the pipeline attempts the LoRA download. -/
lemma remote_lora_attempted (c : PipelineConfig) (r : ResolvedNames) (w : World) (p : String)
    (hsb : w.snapshotBase = .ok p) (hlid : c.lora_id ≠ none) :
    Event.downloadLora c.lora_id ∈ (remote_pipeline_to_local c r w).1 := by
  unfold remote_pipeline_to_local buildAndExportSteps
  rw [hsb]
  dsimp only
  rw [if_neg hlid]
  by_cases hHF : c.library_type = "HF" <;> by_cases hGG : c.library_type = "GGUF" <;>
    by_cases hL : w.loadHF = 0 <;> by_cases hL2 : w.loadGGUF = 0 <;>
      by_cases hB : w.build = 0 <;> by_cases hE : w.exportRk = 0 <;>
        simp [hHF, hGG, hL, hL2, hB, hE]

/-- A driver iteration that reaches the pipeline attempts the LoRA download
with the empty-string repo id. -/
lemma processCombo_lora_attempted (fmt : ℚ → String) (pl : Platform) (opt : Bool)
    (m q : String) (rate : ℚ) (w : World) (rr : ResolvedNames) (u p : String)
    (hb : build_vars (pipelineOfCombo m q (fmt rate) pl opt) = some rr)
    (hlg : (login_to_hf w).2 = .ok u)
    (hsb : w.snapshotBase = .ok p) :
    Event.downloadLora (some "") ∈ (processCombo fmt pl opt m q rate w).1 := by
  have hdl : Event.downloadLora (some "") ∈
      (remote_pipeline_to_local (pipelineOfCombo m q (fmt rate) pl opt) rr w).1 :=
    remote_lora_attempted (pipelineOfCombo m q (fmt rate) pl opt) rr w p hsb
      (Option.some_ne_none "")
  simp only [processCombo]
  rw [hb, hlg]
  dsimp only
  cases hrp : (remote_pipeline_to_local (pipelineOfCombo m q (fmt rate) pl opt) rr w).2 with
  | error pe => cases pe <;> simp [List.mem_append, hdl]
  | ok _ =>
    cases hu : (upload_to_repo u rr.model_name
        (pipelineOfCombo m q (fmt rate) pl opt).platform rr.rkllm_version w).outcome with
    | error pe => cases pe <;> simp [List.mem_append, hdl]
    | ok _ => simp [List.mem_append, hdl]

/-- C5 counterexample: on the scenario (model `org/llama-x`, rk3588, `w8a8`,
hybrid rate `0.0`, optimization on) the artifact path's directory component
is `llama-x-rk3588` (owner prefix stripped), not the claim's
`org-llama-x-rk3588` (`org-llama-x-target-A` with the platform name
substituted). -/
theorem scenario_path_counterexample :
    (build_vars cfgRateA).map (fun r => r.export_path ++ r.export_name ++ ".rkllm") =
        some "./models/llama-x-rk3588/llama-x-rk3588-w8a8-opt-1-hybrid-ratio-0.0.rkllm" ∧
      (build_vars cfgRateA).map (fun r => r.export_path ++ r.export_name ++ ".rkllm") ≠
        some "./models/org-llama-x-rk3588/llama-x-rk3588-w8a8-opt-1-hybrid-ratio-0.0.rkllm" :=
  ⟨by decide, by decide⟩

/-- C5 amended: the scenario resolves to the artifact path
`./models/llama-x-rk3588/llama-x-rk3588-w8a8-opt-1-hybrid-ratio-0.0.rkllm`;
when load, build and export all return 0 the pipeline succeeds and writes
that path, and (with the hub calls succeeding) the published repo URL is
non-null. -/
theorem scenario_resolves (r : ResolvedNames) (w : World) (p t url : String)
    (hr : build_vars cfgRateA = some r)
    (hsb : w.snapshotBase = .ok p) (hL : w.loadHF = 0) (hB : w.build = 0)
    (hE : w.exportRk = 0) (hcr : w.createRepo = .ok url)
    (hcl : w.cardLoad = .ok t) (huf : w.uploadFolder = .ok ()) :
    r.export_path ++ r.export_name ++ ".rkllm" =
        "./models/llama-x-rk3588/llama-x-rk3588-w8a8-opt-1-hybrid-ratio-0.0.rkllm" ∧
      (remote_pipeline_to_local cfgRateA r w).2 = .ok () ∧
      Event.exportStep "./models/llama-x-rk3588/llama-x-rk3588-w8a8-opt-1-hybrid-ratio-0.0.rkllm"
        ∈ (remote_pipeline_to_local cfgRateA r w).1 ∧
      (upload_to_repo "user" r.model_name cfgRateA.platform r.rkllm_version w).repo_url =
        some url ∧
      (upload_to_repo "user" r.model_name cfgRateA.platform r.rkllm_version w).outcome =
        .ok () := by
  have hra : r = resRateA := by
    have h0 : build_vars cfgRateA = some resRateA := by decide
    rw [h0] at hr
    exact (Option.some.inj hr).symm
  subst hra
  have hpath : resRateA.export_path ++ resRateA.export_name ++ ".rkllm" =
      "./models/llama-x-rk3588/llama-x-rk3588-w8a8-opt-1-hybrid-ratio-0.0.rkllm" := by decide
  obtain ⟨hok, hmem⟩ := remote_hf_success cfgRateA resRateA w p rfl hsb hL hB hE
  rw [hpath] at hmem
  exact ⟨hpath, hok, hmem,
    upload_repo_url_some "user" resRateA.model_name cfgRateA.platform resRateA.rkllm_version
      w url hcr,
    upload_outcome_ok "user" resRateA.model_name cfgRateA.platform resRateA.rkllm_version
      w t hcl huf⟩

/-- C5 witness: the amended scenario discharged on the all-ok world. -/
theorem scenario_resolves_witness :
    build_vars cfgRateA = some resRateA ∧
      okWorld.snapshotBase = .ok "/models/base" ∧ okWorld.loadHF = 0 ∧ okWorld.build = 0 ∧
      okWorld.exportRk = 0 ∧ okWorld.createRepo = .ok "https://huggingface.co/user/x" ∧
      (resRateA.export_path ++ resRateA.export_name ++ ".rkllm" =
          "./models/llama-x-rk3588/llama-x-rk3588-w8a8-opt-1-hybrid-ratio-0.0.rkllm" ∧
        (remote_pipeline_to_local cfgRateA resRateA okWorld).2 = .ok () ∧
        Event.exportStep
            "./models/llama-x-rk3588/llama-x-rk3588-w8a8-opt-1-hybrid-ratio-0.0.rkllm"
          ∈ (remote_pipeline_to_local cfgRateA resRateA okWorld).1 ∧
        (upload_to_repo "user" resRateA.model_name cfgRateA.platform resRateA.rkllm_version
            okWorld).repo_url = some "https://huggingface.co/user/x" ∧
        (upload_to_repo "user" resRateA.model_name cfgRateA.platform resRateA.rkllm_version
            okWorld).outcome = .ok ()) :=
  ⟨by decide, rfl, rfl, rfl, rfl, rfl,
    scenario_resolves resRateA okWorld "/models/base" "card" "https://huggingface.co/user/x"
      (by decide) rfl rfl rfl rfl rfl rfl rfl⟩

/-- C6 counterexample: two runs whose only difference is the offending
hybrid rate (2 vs 3) abort identically with a bare `AssertionError`: the
diagnostic does not identify the offending value. -/
theorem rate_diagnostic_counterexample :
    convert fmtQ ["o/m"] ["w8a8"] [2] true .rk3588 (fun _ _ _ => okWorld) =
        ([], .error (.otherError "AssertionError")) ∧
      convert fmtQ ["o/m"] ["w8a8"] [2] true .rk3588 (fun _ _ _ => okWorld) =
        convert fmtQ ["o/m"] ["w8a8"] [3] true .rk3588 (fun _ _ _ => okWorld) :=
  ⟨rfl, rfl⟩

/-- C6 amended: validation failure aborts `convert` before any event (hence
before any network activity).  For an unsupported qtype the `ValueError`
diagnostic names the offending value; for an out-of-range hybrid rate the
bare assert aborts with an `AssertionError` that does not name it. -/
theorem validation_aborts_before_network (fmt : ℚ → String)
    (model_ids qtypes : List String) (rates : List ℚ) (opt : Bool) (pl : Platform)
    (worlds : String → String → ℚ → World) :
    (∀ q, qtypes.find? (fun x => !(allowedQtypes pl).contains x) = some q →
      convert fmt model_ids qtypes rates opt pl worlds =
        ([], .error (.otherError ("\x27" ++ q ++ "\x27 is not a valid " ++ qtypeEnumName pl)))) ∧
    (qtypes.find? (fun x => !(allowedQtypes pl).contains x) = none →
      (∃ r ∈ rates, ¬(0 ≤ r ∧ r ≤ 1)) →
      convert fmt model_ids qtypes rates opt pl worlds =
        ([], .error (.otherError "AssertionError"))) := by
  constructor
  · intro q hq
    unfold convert validateQtypes
    rw [hq]
  · intro hnone hbad
    obtain ⟨r0, hr0m, hr0⟩ := hbad
    have hall : rates.all (fun r => decide (0 ≤ r) && decide (r ≤ 1)) = false := by
      cases hall : rates.all (fun r => decide (0 ≤ r) && decide (r ≤ 1)) with
      | false => rfl
      | true =>
        exfalso
        have := List.all_eq_true.mp hall r0 hr0m
        rw [Bool.and_eq_true, decide_eq_true_iff, decide_eq_true_iff] at this
        exact hr0 this
    unfold convert validateQtypes validateRates
    rw [hnone]
    dsimp only
    rw [hall]
    rfl

/-- C6 witness: a bogus qtype yields a ValueError naming it; rate 2 yields
the bare AssertionError; both abort with an empty trace. -/
theorem validation_aborts_witness :
    convert fmtQ ["o/m"] ["bogus"] [0] true .rk3588 (fun _ _ _ => okWorld) =
        ([], .error (.otherError ("\x27" ++ "bogus" ++ "\x27 is not a valid " ++
          qtypeEnumName Platform.rk3588))) ∧
      convert fmtQ ["o/m"] ["w8a8"] [2] true .rk3588 (fun _ _ _ => okWorld) =
        ([], .error (.otherError "AssertionError")) :=
  ⟨(validation_aborts_before_network fmtQ ["o/m"] ["bogus"] [0] true .rk3588
      (fun _ _ _ => okWorld)).1 "bogus" (by decide),
    (validation_aborts_before_network fmtQ ["o/m"] ["w8a8"] [2] true .rk3588
      (fun _ _ _ => okWorld)).2 (by decide) ⟨2, by decide, by decide⟩⟩

/-- C10 counterexample: a CLI run does reach the adapter-download branch:
its trace contains the LoRA download attempt with the empty-string repo id
(the skip test compares against `None` while the driver passes `""`). -/
theorem cli_lora_branch_reached :
    Event.downloadLora (some "") ∈
      (convert fmtQ ["o/m"] ["w8a8"] [0] true .rk3588 (fun _ _ _ => okWorld)).1 := by
  decide

/-- C10 amended: every CLI combination sets `lora_id = ""` and
`library_type = "HF"`; the GGUF load branch is unreachable and the resolved
export name has no LoRA component; but the adapter-download branch IS
reached whenever the pipeline runs. -/
theorem cli_combo_invariants (fmt : ℚ → String) (pl : Platform) (opt : Bool)
    (m q : String) (rate : ℚ) (w : World) (mn u p : String)
    (hmn : afterSlash m = some mn) (hwho : w.whoamiResult = .ok u)
    (hsb : w.snapshotBase = .ok p) :
    (pipelineOfCombo m q (fmt rate) pl opt).lora_id = some "" ∧
      (pipelineOfCombo m q (fmt rate) pl opt).library_type = "HF" ∧
      (∃ r, build_vars (pipelineOfCombo m q (fmt rate) pl opt) = some r ∧
        r.lora_name = none ∧
        r.export_name = mn ++ "-" ++ name_suffix (pipelineOfCombo m q (fmt rate) pl opt)) ∧
      Event.loadGGUF ∉ (processCombo fmt pl opt m q rate w).1 ∧
      Event.downloadLora (some "") ∈ (processCombo fmt pl opt m q rate w).1 := by
  have hbv := build_vars_driver_ex m q (fmt rate) pl opt mn hmn
  have hlg := login_ok_of_whoami w u hwho
  exact ⟨rfl, rfl, ⟨_, hbv, rfl, rfl⟩, processCombo_no_gguf fmt pl opt m q rate w,
    processCombo_lora_attempted fmt pl opt m q rate w _ u p hbv hlg hsb⟩

/-- C10 witness: the amended invariants discharged on a concrete CLI
combination over the all-ok world. -/
theorem cli_combo_invariants_witness :
    afterSlash "o/m" = some "m" ∧ okWorld.whoamiResult = .ok "user" ∧
      okWorld.snapshotBase = .ok "/models/base" ∧
      ((pipelineOfCombo "o/m" "w8a8" (fmtQ 0) Platform.rk3588 true).lora_id = some "" ∧
        (pipelineOfCombo "o/m" "w8a8" (fmtQ 0) Platform.rk3588 true).library_type = "HF" ∧
        (∃ r, build_vars (pipelineOfCombo "o/m" "w8a8" (fmtQ 0) Platform.rk3588 true) = some r ∧
          r.lora_name = none ∧
          r.export_name = "m" ++ "-" ++
            name_suffix (pipelineOfCombo "o/m" "w8a8" (fmtQ 0) Platform.rk3588 true)) ∧
        Event.loadGGUF ∉
          (processCombo fmtQ Platform.rk3588 true "o/m" "w8a8" 0 okWorld).1 ∧
        Event.downloadLora (some "") ∈
          (processCombo fmtQ Platform.rk3588 true "o/m" "w8a8" 0 okWorld).1) :=
  ⟨by decide, rfl, rfl,
    cli_combo_invariants fmtQ Platform.rk3588 true "o/m" "w8a8" 0 okWorld "m" "user"
      "/models/base" (by decide) rfl rfl⟩

end RKLLMToolkitCLI
